import Mathlib

/-!
Verification of the transaction-execution and event-decoding pipeline of the
`standardweb3` client (`src/standardweb3/contract/__init__.py`, class
`ContractFunctions`), as a shallow embedding.

Modelling conventions:
* Python exceptions are modelled with `Except PyErr`; a `raise` is `.error`,
  a `try/except` handler is a `match` on the inner result.
* Python dictionaries with a fixed key set are structures; possibly-missing
  keys are `Option` fields, and a subscript access that can raise `KeyError`
  goes through `getField` / `dictGet`.
* Network and signing side effects (`build_transaction`, `send_tx`,
  `wait_for_tx_receipt`) are out of scope: the post-receipt continuation of
  `_execute_transaction` takes the `Receipt` as an input.
* `Web3.to_checksum_address` validates a `0x`-prefixed 40-hex-digit address
  and re-cases it (EIP-55).  The keccak-based re-casing is abstracted to the
  identity; only validity (raise / no raise) and case-insensitive identity
  matter to the properties below, and re-casing preserves both.
* ABI trial-decoding of a raw log (`event_function().process_log(log)`) is
  external to the repository (web3 library); a `Log` therefore carries the
  set of event shapes that decode it without error, plus the decoded
  argument payload.
-/

deriving instance DecidableEq for Except

/-- Python exception values raised by the contract module. -/
inductive PyErr where
  | valueError (msg : String)
  | keyError (key : String)
  | indexError
  | exception (msg : String)
deriving Repr, DecidableEq

/-- Python truthiness of a string: `bool(s)` is `True` iff `s` is non-empty.
In particular `bool("False") = True`. -/
def pyBoolOfString (s : String) : Bool :=
  !s.data.isEmpty

/-- Python `f"{b}"` / `str(b)` for a `bool`: `"True"` or `"False"`. -/
def pyStrOfBool (b : Bool) : String :=
  if b then "True" else "False"

/-- ASCII lower-casing of one character (the strings this module
lower-cases are hex addresses, all ASCII). -/
def lowerChar : Char → Char
  | 'A' => 'a'
  | 'B' => 'b'
  | 'C' => 'c'
  | 'D' => 'd'
  | 'E' => 'e'
  | 'F' => 'f'
  | 'G' => 'g'
  | 'H' => 'h'
  | 'I' => 'i'
  | 'J' => 'j'
  | 'K' => 'k'
  | 'L' => 'l'
  | 'M' => 'm'
  | 'N' => 'n'
  | 'O' => 'o'
  | 'P' => 'p'
  | 'Q' => 'q'
  | 'R' => 'r'
  | 'S' => 's'
  | 'T' => 't'
  | 'U' => 'u'
  | 'V' => 'v'
  | 'W' => 'w'
  | 'X' => 'x'
  | 'Y' => 'y'
  | 'Z' => 'z'
  | c => c

/-- Python `s.lower()`. -/
def pyLower (s : String) : String :=
  String.mk (s.data.map lowerChar)

/-- The recursion behind `pySplit`: current separator-free run
(accumulated reversed) and remaining characters. -/
def pySplitAux (sep : Char) : List Char → List Char → List String
  | acc, [] => [String.mk acc.reverse]
  | acc, c :: cs =>
      if c = sep then String.mk acc.reverse :: pySplitAux sep [] cs
      else pySplitAux sep (c :: acc) cs

/-- Python `s.split("_")` (single-character separator, as the source uses
it): splits on every separator occurrence, keeping empty fields. -/
def pySplit (sep : Char) (s : String) : List String :=
  pySplitAux sep [] s.data

/-- Decimal-digit accumulation for `pyInt`. -/
def decDigitsToNat : Nat → List Char → Option Nat
  | acc, [] => some acc
  | acc, c :: cs =>
      if c.isDigit then decDigitsToNat (acc * 10 + (c.toNat - '0'.toNat)) cs
      else none

/-- Python `int(s)` on the non-negative decimal strings this module
produces and consumes; a non-numeric string raises `ValueError`. -/
def pyInt (s : String) : Except PyErr Nat :=
  match decDigitsToNat 0 s.data with
  | some n => if s.data.isEmpty then .error (.valueError ("invalid literal for int() with base 10: " ++ s)) else .ok n
  | none => .error (.valueError ("invalid literal for int() with base 10: " ++ s))

/-- Is `c` a hexadecimal digit? -/
def isHexDigitChar (c : Char) : Bool :=
  c.isDigit || ('a' ≤ c && c ≤ 'f') || ('A' ≤ c && c ≤ 'F')

/-- Is `s` a `0x`-prefixed 40-hex-digit address string? -/
def isHexAddress (s : String) : Bool :=
  match s.data with
  | '0' :: 'x' :: rest => rest.length = 40 && rest.all isHexDigitChar
  | _ => false

/-- `Web3.to_checksum_address`: raises on a malformed address, otherwise
re-cases it per EIP-55.  The keccak re-casing is abstracted to the identity
(it only changes letter case, which none of the verified properties
depend on). -/
def toChecksumAddress (s : String) : Except PyErr String :=
  if isHexAddress s then .ok s
  else .error (.valueError ("when sending a str, it must be a hex string: " ++ s))

/-- Lookup in a Python dict modelled as an association list; a missing key
raises `KeyError`. -/
def dictGet {α : Type} (m : List (String × α)) (k : String) : Except PyErr α :=
  match m.lookup k with
  | some v => .ok v
  | none => .error (.keyError k)

/-- Access to a possibly-absent dict entry; `none` raises `KeyError key`. -/
def getField {α : Type} (o : Option α) (key : String) : Except PyErr α :=
  match o with
  | some v => .ok v
  | none => .error (.keyError key)

/-- A Python argument that should be a list: `isinstance(x, list)` can fail. -/
inductive PyInput (α : Type) where
  | pyList (items : List α)
  | notAList
deriving Repr, DecidableEq

/-- One entry of `cancel_order_data`: a string, or some non-string value. -/
inductive CancelEntry where
  | str (s : String)
  | nonStr
deriving Repr, DecidableEq

/-- The 4-tuple appended to `processed_data` by `cancel_orders`. -/
structure CancelTuple where
  base : String
  quote : String
  isBid : Bool
  orderId : Nat
deriving Repr, DecidableEq

/-- The contract call assembled by a batch operation, as handed to
`_execute_transaction`: function name, positional tuples, summed native
value, and gas settings after the per-item floor. -/
structure BuiltCall (α : Type) where
  functionName : String
  args : List α
  ethAmount : Nat
  gas : Nat
  gasPrice : Nat
deriving Repr, DecidableEq

/-- The synthetic packed order identifier emitted by `_parse_decoded_logs`:
`f"{base}_{quote}_{is_bid}_{order_id}"`. -/
def order_info_id (base quote : String) (isBid : Bool) (orderId : Nat) : String :=
  base ++ "_" ++ quote ++ "_" ++ pyStrOfBool isBid ++ "_" ++ toString orderId

/-- Body of the per-item loop of `cancel_orders`: `isinstance` check, split
on `"_"`, indexing `order_id[0] .. order_id[3]` (an `IndexError` when fewer
than four fields; fields beyond the fourth are never read), then the typed
4-tuple via checksumming, `bool(...)` and `int(...)`. -/
def process_cancel_item (i : Nat) : CancelEntry → Except PyErr CancelTuple
  | .nonStr =>
      .error (.valueError
        ("Order data at index " ++ toString i ++ " must be a string containing the order id"))
  | .str s =>
      match pySplit '_' s with
      | f0 :: f1 :: f2 :: f3 :: _ => do
          let base ← toChecksumAddress f0
          let quote ← toChecksumAddress f1
          let isBid := pyBoolOfString f2
          let orderId ← pyInt f3
          .ok { base := base, quote := quote, isBid := isBid, orderId := orderId }
      | _ => .error .indexError

/-- The `for i, order_data in enumerate(cancel_order_data)` loop. -/
def process_cancel_items (i : Nat) : List CancelEntry → Except PyErr (List CancelTuple)
  | [] => .ok []
  | e :: rest => do
      let t ← process_cancel_item i e
      let ts ← process_cancel_items (i + 1) rest
      .ok (t :: ts)

/-- `ContractFunctions.cancel_orders` up to the point where it hands the
call to `_execute_transaction` (no `eth_amount` keyword, so 0). -/
def cancel_orders (input : PyInput CancelEntry) (gas gasPrice : Nat) :
    Except PyErr (BuiltCall CancelTuple) := do
  match input with
  | .notAList => .error (.valueError "cancel_order_data must be a list")
  | .pyList items =>
      if items.isEmpty then
        .error (.valueError "cancel_order_data cannot be empty")
      else do
        let processed ← process_cancel_items 0 items
        let gas := if gas < 3000000 * processed.length then 3000000 * processed.length else gas
        .ok { functionName := "cancelOrders", args := processed, ethAmount := 0,
              gas := gas, gasPrice := gasPrice }

/-- The order dict handled by `create_orders` / `update_orders`; every key
is optional because presence is exactly what the validation checks. -/
structure OrderDict where
  base : Option String := none
  quote : Option String := none
  isBid : Option Bool := none
  isLimit : Option Bool := none
  orderId : Option Nat := none
  price : Option Nat := none
  amount : Option Nat := none
  n : Option Nat := none
  recipient : Option String := none
  isETH : Option Bool := none
deriving Repr, DecidableEq

/-- One entry of `create_order_data` / `update_order_data`: a dict whose
keys may individually be absent, or some non-dict value. -/
inductive OrderEntry where
  | dict (d : OrderDict)
  | nonDict
deriving Repr, DecidableEq

/-- The 10-tuple appended to `processed_data` by `create_orders` and
`update_orders`. -/
structure ProcessedOrder where
  base : String
  quote : String
  isBid : Bool
  isLimit : Bool
  orderId : Nat
  price : Nat
  amount : Nat
  n : Nat
  recipient : String
  isETH : Bool
deriving Repr, DecidableEq

/-- First missing entry of `create_orders`' `required_fields` list (checked
in source order; `orderId` and `isETH` are not in the list). -/
def createRequiredMissing (d : OrderDict) : Option String :=
  if d.base.isNone then some "base"
  else if d.quote.isNone then some "quote"
  else if d.isBid.isNone then some "isBid"
  else if d.isLimit.isNone then some "isLimit"
  else if d.price.isNone then some "price"
  else if d.amount.isNone then some "amount"
  else if d.n.isNone then some "n"
  else if d.recipient.isNone then some "recipient"
  else none

/-- First missing entry of `update_orders`' `required_fields` list, which
additionally requires `orderId` and `isETH`. -/
def updateRequiredMissing (d : OrderDict) : Option String :=
  if d.base.isNone then some "base"
  else if d.quote.isNone then some "quote"
  else if d.isBid.isNone then some "isBid"
  else if d.isLimit.isNone then some "isLimit"
  else if d.orderId.isNone then some "orderId"
  else if d.price.isNone then some "price"
  else if d.amount.isNone then some "amount"
  else if d.n.isNone then some "n"
  else if d.recipient.isNone then some "recipient"
  else if d.isETH.isNone then some "isETH"
  else none

/-- Body of the per-item loop of `create_orders`: `isinstance` check, the
`orderId`-defaulting step (whose result is never read back when the tuple
is built: the fifth tuple slot is the literal `1` in the source), the
required-field validation, the typed tuple, and the item's contribution to
`eth_amount`.  Note that `isETH` is read by the tuple construction without
having been validated. -/
def processCreateItem (i : Nat) : OrderEntry → Except PyErr (ProcessedOrder × Nat)
  | .nonDict => .error (.valueError ("Order data at index " ++ toString i ++ " must be a dictionary"))
  | .dict d0 =>
      let d := if d0.orderId.isNone then { d0 with orderId := some 0 } else d0
      match createRequiredMissing d with
      | some f =>
          .error (.valueError ("Order data at index " ++ toString i ++ " missing required field: " ++ f))
      | none => do
          let base ← toChecksumAddress (← getField d.base "base")
          let quote ← toChecksumAddress (← getField d.quote "quote")
          let isBid ← getField d.isBid "isBid"
          let isLimit ← getField d.isLimit "isLimit"
          let price ← getField d.price "price"
          let amount ← getField d.amount "amount"
          let n ← getField d.n "n"
          let recipient ← toChecksumAddress (← getField d.recipient "recipient")
          let isETH ← getField d.isETH "isETH"
          let po : ProcessedOrder :=
            { base := base, quote := quote, isBid := isBid, isLimit := isLimit,
              orderId := 1, price := price, amount := amount, n := n,
              recipient := recipient, isETH := isETH }
          -- `if order_data["isETH"]: eth_amount += int(order_data["amount"])`
          .ok (po, if isETH then amount else 0)

/-- Body of the per-item loop of `update_orders`; here `orderId` and
`isETH` are validated, and the fifth tuple slot is
`int(order_data["orderId"])`. -/
def processUpdateItem (i : Nat) : OrderEntry → Except PyErr (ProcessedOrder × Nat)
  | .nonDict => .error (.valueError ("Order data at index " ++ toString i ++ " must be a dictionary"))
  | .dict d =>
      match updateRequiredMissing d with
      | some f =>
          .error (.valueError ("Order data at index " ++ toString i ++ " missing required field: " ++ f))
      | none => do
          let base ← toChecksumAddress (← getField d.base "base")
          let quote ← toChecksumAddress (← getField d.quote "quote")
          let isBid ← getField d.isBid "isBid"
          let isLimit ← getField d.isLimit "isLimit"
          let orderId ← getField d.orderId "orderId"
          let price ← getField d.price "price"
          let amount ← getField d.amount "amount"
          let n ← getField d.n "n"
          let recipient ← toChecksumAddress (← getField d.recipient "recipient")
          let isETH ← getField d.isETH "isETH"
          let po : ProcessedOrder :=
            { base := base, quote := quote, isBid := isBid, isLimit := isLimit,
              orderId := orderId, price := price, amount := amount, n := n,
              recipient := recipient, isETH := isETH }
          .ok (po, if isETH then amount else 0)

/-- The `for i, order_data in enumerate(...)` loop shared by the two batch
builders, accumulating `processed_data` and `eth_amount`. -/
def processOrderItems (step : Nat → OrderEntry → Except PyErr (ProcessedOrder × Nat))
    (i : Nat) : List OrderEntry → Except PyErr (List ProcessedOrder × Nat)
  | [] => .ok ([], 0)
  | e :: rest => do
      let (po, eth) ← step i e
      let (pos, eths) ← processOrderItems step (i + 1) rest
      .ok (po :: pos, eth + eths)

/-- `ContractFunctions.create_orders` up to the point where it hands the
call to `_execute_transaction`. -/
def create_orders (input : PyInput OrderEntry) (gas gasPrice : Nat) :
    Except PyErr (BuiltCall ProcessedOrder) := do
  match input with
  | .notAList => .error (.valueError "create_order_data must be a list")
  | .pyList items =>
      if items.isEmpty then
        .error (.valueError "create_order_data cannot be empty")
      else do
        let (processed, ethAmount) ← processOrderItems processCreateItem 0 items
        let gas := if gas < 3000000 * processed.length then 3000000 * processed.length else gas
        .ok { functionName := "createOrders", args := processed, ethAmount := ethAmount,
              gas := gas, gasPrice := gasPrice }

/-- `ContractFunctions.update_orders` up to the point where it hands the
call to `_execute_transaction`. -/
def update_orders (input : PyInput OrderEntry) (gas gasPrice : Nat) :
    Except PyErr (BuiltCall ProcessedOrder) := do
  match input with
  | .notAList => .error (.valueError "update_order_data must be a list")
  | .pyList items =>
      if items.isEmpty then
        .error (.valueError "update_order_data cannot be empty")
      else do
        let (processed, ethAmount) ← processOrderItems processUpdateItem 0 items
        let gas := if gas < 3000000 * processed.length then 3000000 * processed.length else gas
        .ok { functionName := "updateOrders", args := processed, ethAmount := ethAmount,
              gas := gas, gasPrice := gasPrice }

/-- The transaction parameter dict assembled inside `_execute_transaction`
(`from` and the freshly fetched nonce are passed through; the `value` key
is only set when `eth_amount > 0`, an absent key meaning 0 native value
attached). -/
structure TxParams where
  sender : String
  nonce : Nat
  gas : Nat
  gasPrice : Nat
  value : Nat
deriving Repr, DecidableEq

/-- Assembly of `tx_params` from a built call, as `_execute_transaction`
does after popping `eth_amount`, `gas` and `gas_price` from the kwargs. -/
def buildTxParams {α : Type} (sender : String) (nonce : Nat) (call : BuiltCall α) : TxParams :=
  { sender := sender, nonce := nonce, gas := call.gas, gasPrice := call.gasPrice,
    value := if call.ethAmount > 0 then call.ethAmount else 0 }

/-- The seven event shapes of the matching engine contract. -/
inductive EventName where
  | orderPlaced
  | orderMatched
  | orderCanceled
  | newMarketPrice
  | pairAdded
  | listingCostSet
  | pairUpdated
deriving Repr, DecidableEq

/-- The decoded argument payload of a log.  The Python side is a per-event
dict; here a single record carries every key any of the seven events uses,
plus `hasPair` for `PairAdded`'s `"pair" in log["args"]` test. -/
structure EventArgs where
  pair : String := ""
  isBid : Bool := false
  id : Nat := 0
  price : Nat := 0
  placed : Nat := 0
  baseAmount : Nat := 0
  quoteAmount : Nat := 0
  total : Nat := 0
  amount : Nat := 0
  hasPair : Bool := true
deriving Repr, DecidableEq

/-- A raw receipt log: its emitting address, the event shapes the web3 ABI
decoder accepts for it without raising, and the argument payload such a
decode yields. -/
structure Log where
  address : String
  decodable : List EventName
  args : EventArgs
deriving Repr, DecidableEq

/-- A transaction receipt (status 1 = success, 0 = failure). -/
structure Receipt where
  status : Nat
  logs : List Log
  gasUsed : Nat
  txHash : String
  blockNumber : Nat
deriving Repr, DecidableEq

/-- One entry of the `decoded_logs` list built by
`_decode_function_decoded_logs`. -/
structure DecodedLog where
  event : EventName
  args : EventArgs
  transactionHash : String
  blockNumber : Nat
deriving Repr, DecidableEq

/-- The `events_to_try` list, in its fixed source order. -/
def eventsToTry : List EventName :=
  [.orderPlaced, .orderMatched, .orderCanceled, .newMarketPrice,
   .pairAdded, .listingCostSet, .pairUpdated]

/-- The inner `for event_name, event_function in events_to_try` loop with
its `try/except/break`: the first shape that decodes the log wins. -/
def tryDecodeEvents (log : Log) : List EventName → Option EventName
  | [] => none
  | e :: rest => if e ∈ log.decodable then some e else tryDecodeEvents log rest

/-- The log loop of `_decode_function_decoded_logs`: skip logs whose
address differs (case-insensitively) from the matching engine's, decode
the rest by first matching shape, and drop (with a printed diagnostic)
logs no shape decodes. -/
def decodeLogsLoop (matchingEngine : String) (r : Receipt) : List Log → List DecodedLog
  | [] => []
  | log :: rest =>
      if pyLower log.address ≠ pyLower matchingEngine then
        decodeLogsLoop matchingEngine r rest
      else
        match tryDecodeEvents log eventsToTry with
        | some e =>
            { event := e, args := log.args, transactionHash := r.txHash,
              blockNumber := r.blockNumber } :: decodeLogsLoop matchingEngine r rest
        | none => decodeLogsLoop matchingEngine r rest

/-- `ContractFunctions._decode_function_decoded_logs` (the
`to_checksum_address` on the engine address is dropped: the comparison
lowercases both sides, and re-casing is case-invisible).  Returns `None`
rather than an empty list when nothing decoded. -/
def decode_function_decoded_logs (matchingEngine : String) (r : Receipt) :
    Option (List DecodedLog) :=
  let decoded := decodeLogsLoop matchingEngine r r.logs
  if decoded.isEmpty then none else some decoded

/-- `base_quote` map entry: base address, quote address, pair symbol. -/
structure PairMeta where
  base : String
  quote : String
  symbol : String
deriving Repr, DecidableEq

/-- `token_info` map entry: decimal count and symbol. -/
structure TokenMeta where
  decimals : Nat
  symbol : String
deriving Repr, DecidableEq

/-- The `order_info` dict assembled per `OrderPlaced` event (8 keys). -/
structure OrderInfo where
  id : String
  pair : String
  base : String
  quote : String
  isBid : Bool
  orderId : Nat
  price : Nat
  amount : Nat
deriving Repr, DecidableEq

/-- Per-event body of the `_parse_decoded_logs` loop.  Every metadata
subscript (`self.base_quote[...]`, `self.token_info[...]`) the source
performs — including the ones feeding diagnostic prints — is retained in
source order, since each can raise `KeyError` into the function-level
handler.  Only `OrderPlaced` yields a record. -/
def processDecodedLog (baseQuote : List (String × PairMeta))
    (tokenInfo : List (String × TokenMeta)) (l : DecodedLog) :
    Except PyErr (Option OrderInfo) :=
  match l.event with
  | .orderPlaced => do
      let pairL := pyLower l.args.pair
      let meta ← dictGet baseQuote pairL
      let info : OrderInfo :=
        { id := order_info_id meta.base meta.quote l.args.isBid l.args.id,
          pair := pairL, base := meta.base, quote := meta.quote,
          isBid := l.args.isBid, orderId := l.args.id,
          price := l.args.price, amount := l.args.placed }
      -- the diagnostic prints read the placed-side token's metadata
      let placedTok := if l.args.isBid then meta.quote else meta.base
      let _ ← dictGet tokenInfo placedTok
      .ok (some info)
  | .orderMatched => do
      let meta ← dictGet baseQuote (pyLower l.args.pair)
      let _ ← dictGet tokenInfo meta.base
      let _ ← dictGet tokenInfo meta.quote
      let _ ← dictGet tokenInfo (if l.args.isBid then meta.quote else meta.base)
      .ok none
  | .orderCanceled => .ok none
  | .newMarketPrice => do
      let meta ← dictGet baseQuote (pyLower l.args.pair)
      let _ ← dictGet tokenInfo meta.base
      let _ ← dictGet tokenInfo meta.quote
      .ok none
  | .pairAdded =>
      if l.args.hasPair then do
        let meta ← dictGet baseQuote (pyLower l.args.pair)
        let _ ← dictGet tokenInfo meta.base
        let _ ← dictGet tokenInfo meta.quote
        .ok none
      else .ok none
  | .listingCostSet => .ok none
  | .pairUpdated => .ok none

/-- The loop of `_parse_decoded_logs` inside its `try`: sequential, the
first raising metadata lookup aborts the whole loop. -/
def parseDecodedLogsBody (baseQuote : List (String × PairMeta))
    (tokenInfo : List (String × TokenMeta)) : List DecodedLog → Except PyErr (List OrderInfo)
  | [] => .ok []
  | l :: rest => do
      let r ← processDecodedLog baseQuote tokenInfo l
      let rs ← parseDecodedLogsBody baseQuote tokenInfo rest
      .ok (r.toList ++ rs)

/-- The heterogeneous Python return of `_parse_decoded_logs`: the single
`order_info` dict when exactly one was collected, otherwise a list. -/
inductive ParseResult where
  | single (o : OrderInfo)
  | list (os : List OrderInfo)
deriving Repr, DecidableEq

/-- The return expression
`order_infos[0] if len(order_infos) == 1 else [] if len(order_infos) == 0 else order_infos`. -/
def parseReturn : List OrderInfo → ParseResult
  | [o] => .single o
  | os => .list os

/-- `ContractFunctions._parse_decoded_logs`: `None` input yields `[]`; any
exception inside the loop is caught by the function-level handler, which
prints it and returns `[]`. -/
def parse_decoded_logs (baseQuote : List (String × PairMeta))
    (tokenInfo : List (String × TokenMeta)) (decodedLogs : Option (List DecodedLog)) :
    ParseResult :=
  match decodedLogs with
  | none => .list []
  | some ls =>
      match parseDecodedLogsBody baseQuote tokenInfo ls with
      | .ok os => parseReturn os
      | .error _ => .list []

/-- Python `len()` of a `_parse_decoded_logs` result: a single `order_info`
dict has 8 keys, a list has its length. -/
def pyLen : ParseResult → Nat
  | .single _ => 8
  | .list os => os.length

/-- Python `x[0]` on a `_parse_decoded_logs` result: list indexing, or a
`KeyError` on the dict (key `0` is absent) / `IndexError` on `[]`. -/
def pyIndexZero : ParseResult → Except PyErr OrderInfo
  | .single _ => .error (.keyError "0")
  | .list [] => .error .indexError
  | .list (o :: _) => .ok o

/-- How `_execute_transaction` files the mapper's output into the result
dict: key `order_info` with a record, key `order_info` with `None`, or key
`order_infos` carrying the mapper's value as-is. -/
inductive ResultOrders where
  | orderInfoSingle (o : OrderInfo)
  | orderInfoNone
  | orderInfos (v : ParseResult)
deriving Repr, DecidableEq

/-- The `if len(order_infos) == 1 ... else ... else ...` placement logic of
`_execute_transaction` (lines 132–138). -/
def bundleOrders (pr : ParseResult) : Except PyErr ResultOrders :=
  if pyLen pr = 1 then do
    let o ← pyIndexZero pr
    .ok (.orderInfoSingle o)
  else if pyLen pr = 0 then .ok .orderInfoNone
  else .ok (.orderInfos pr)

/-- The caller-supplied configuration `_execute_transaction` reads. -/
structure ExecCtx where
  matchingEngine : String
  baseQuote : List (String × PairMeta)
  tokenInfo : List (String × TokenMeta)
deriving Repr, DecidableEq

/-- The result dict of a completed `_execute_transaction`. -/
structure ExecResult where
  txHash : String
  decodedLogs : Option (List DecodedLog)
  gasUsed : Nat
  status : Nat
  orders : ResultOrders
deriving Repr, DecidableEq

/-- The continuation of `_execute_transaction` from the moment the receipt
is available (the build/sign/send steps are network effects whose outcome
is the `Receipt` input), before the surrounding `try/except`: a status of
0 raises `Exception("Transaction failed")` and decoding is never
reached. -/
def execute_transaction_body (ctx : ExecCtx) (r : Receipt) : Except PyErr ExecResult := do
  if r.status = 0 then
    .error (.exception "Transaction failed")
  else do
    let decoded := decode_function_decoded_logs ctx.matchingEngine r
    let orderInfos := parse_decoded_logs ctx.baseQuote ctx.tokenInfo decoded
    let orders ← bundleOrders orderInfos
    .ok { txHash := r.txHash, decodedLogs := decoded, gasUsed := r.gasUsed,
          status := r.status, orders := orders }

/-- `ContractFunctions._execute_transaction` as the caller sees it: the
blanket `except Exception` prints the error and falls off the end, so the
coroutine returns `None` instead of propagating any exception — the outer
`Except` layer (an exception reaching the caller) is always `.ok`. -/
def execute_transaction (ctx : ExecCtx) (r : Receipt) : Except PyErr (Option ExecResult) :=
  match execute_transaction_body ctx r with
  | .ok res => .ok (some res)
  | .error _ => .ok none

/-- The reference decoding algorithm, written from the spec's words: keep
exactly the receipt logs whose address equals the matching-engine address
case-insensitively; decode each kept log to the first of the seven shapes
(in the fixed trial order) that accepts it; drop kept logs no shape
accepts; keep the original log order. -/
def decoderReferenceAlg (matchingEngine : String) (r : Receipt) : List DecodedLog :=
  (r.logs.filter (fun l => pyLower l.address == pyLower matchingEngine)).filterMap
    (fun l =>
      (eventsToTry.find? (fun e => decide (e ∈ l.decodable))).map
        (fun e =>
          { event := e, args := l.args, transactionHash := r.txHash,
            blockNumber := r.blockNumber }))

/-- The `try/except/break` trial loop is a first-match search over the
shape list. -/
theorem tryDecodeEvents_eq_find (log : Log) (es : List EventName) :
    tryDecodeEvents log es = es.find? (fun e => decide (e ∈ log.decodable)) := by
  induction es with
  | nil => rfl
  | cons e rest ih =>
      by_cases h : e ∈ log.decodable <;>
        simp [tryDecodeEvents, List.find?, h, ih]

/-- The decoder loop, over an arbitrary log list, is the filter/filterMap
form of the reference algorithm. -/
theorem decodeLogsLoop_eq_filterMap (matchingEngine : String) (r : Receipt) (ls : List Log) :
    decodeLogsLoop matchingEngine r ls =
      (ls.filter (fun l => pyLower l.address == pyLower matchingEngine)).filterMap
        (fun l =>
          (eventsToTry.find? (fun e => decide (e ∈ l.decodable))).map
            (fun e =>
              { event := e, args := l.args, transactionHash := r.txHash,
                blockNumber := r.blockNumber })) := by
  induction ls with
  | nil => rfl
  | cons l rest ih =>
      by_cases h : pyLower l.address = pyLower matchingEngine
      · rw [decodeLogsLoop]
        simp only [h, ne_eq, not_true_eq_false, if_false, List.filter_cons,
          beq_self_eq_true, if_true, List.filterMap_cons, tryDecodeEvents_eq_find]
        cases eventsToTry.find? (fun e => decide (e ∈ l.decodable)) with
        | none => simpa using ih
        | some e => simpa using ih
      · rw [decodeLogsLoop]
        have hb : (pyLower l.address == pyLower matchingEngine) = false := by
          simpa using h
        simp only [h, ne_eq, not_false_eq_true, if_true, List.filter_cons, hb,
          Bool.false_eq_true, if_false]
        exact ih

/-- C4: the event decoder equals the reference algorithm — kept logs are
exactly those whose address matches the matching-engine address
case-insensitively, each kept log decodes to the first accepting shape in
the fixed order OrderPlaced, OrderMatched, OrderCanceled, NewMarketPrice,
PairAdded, ListingCostSet, PairUpdated, unmatched kept logs are dropped
non-fatally, and the output keeps the original log order; the surrounding
function wraps an empty result as an absent (`None`) one. -/
theorem C4_decoder_matches_reference (matchingEngine : String) (r : Receipt) :
    decodeLogsLoop matchingEngine r r.logs = decoderReferenceAlg matchingEngine r ∧
    decode_function_decoded_logs matchingEngine r =
      (if decoderReferenceAlg matchingEngine r = [] then none
       else some (decoderReferenceAlg matchingEngine r)) := by
  have h := decodeLogsLoop_eq_filterMap matchingEngine r r.logs
  refine ⟨h, ?_⟩
  rw [decode_function_decoded_logs, h, decoderReferenceAlg]
  cases hl : (r.logs.filter
      (fun l => pyLower l.address == pyLower matchingEngine)).filterMap
        (fun l =>
          (eventsToTry.find? (fun e => decide (e ∈ l.decodable))).map
            (fun e =>
              ({ event := e, args := l.args, transactionHash := r.txHash,
                 blockNumber := r.blockNumber } : DecodedLog))) with
    | nil => simp
    | cons d ds => simp

/-- A lowercase sample base-token address. -/
def sampleBase : String := "0x" ++ String.mk (List.replicate 40 'a')

/-- A lowercase sample quote-token address. -/
def sampleQuote : String := "0x" ++ String.mk (List.replicate 40 'b')

/-- A lowercase sample pair address. -/
def samplePairAddr : String := "0x" ++ String.mk (List.replicate 40 'c')

/-- A lowercase sample recipient address. -/
def sampleRecipient : String := "0x" ++ String.mk (List.replicate 40 'd')

/-- A sample matching-engine address. -/
def sampleEngine : String := "0x" ++ String.mk (List.replicate 40 'e')

/-- A pair address with no `base_quote` entry. -/
def sampleUnknownPair : String := "0x" ++ String.mk (List.replicate 40 'f')

/-- Sample `base_quote` map holding only `samplePairAddr`. -/
def sampleBaseQuote : List (String × PairMeta) :=
  [(samplePairAddr, { base := sampleBase, quote := sampleQuote, symbol := "AB" })]

/-- Sample `token_info` map for the two tokens of the sample pair. -/
def sampleTokenInfo : List (String × TokenMeta) :=
  [(sampleBase, { decimals := 18, symbol := "A" }),
   (sampleQuote, { decimals := 6, symbol := "B" })]

/-- Sample execution context. -/
def sampleCtx : ExecCtx :=
  { matchingEngine := sampleEngine, baseQuote := sampleBaseQuote,
    tokenInfo := sampleTokenInfo }

/-- A matching-engine log decoding as `OrderPlaced` on the sample pair. -/
def samplePlacedLog : Log :=
  { address := sampleEngine, decodable := [.orderPlaced],
    args := { pair := samplePairAddr, isBid := true, id := 5, price := 100,
              placed := 2000000 } }

/-- A successful receipt with one `OrderPlaced` log. -/
def sampleReceiptOne : Receipt :=
  { status := 1, logs := [samplePlacedLog], gasUsed := 42, txHash := "0xhash",
    blockNumber := 9 }

/-- A successful receipt with no logs (zero decoded events). -/
def sampleReceiptNone : Receipt :=
  { status := 1, logs := [], gasUsed := 42, txHash := "0xhash", blockNumber := 9 }

/-- A failed receipt (status 0). -/
def sampleReceiptFail : Receipt :=
  { status := 0, logs := [samplePlacedLog], gasUsed := 42, txHash := "0xhash",
    blockNumber := 9 }

/-- The decoded form of `samplePlacedLog` in `sampleReceiptOne`. -/
def samplePlacedDecoded : DecodedLog :=
  { event := .orderPlaced, args := samplePlacedLog.args, transactionHash := "0xhash",
    blockNumber := 9 }

/-- A decoded `OrderPlaced` whose pair has no metadata entry. -/
def sampleUnknownPairDecoded : DecodedLog :=
  { event := .orderPlaced,
    args := { pair := sampleUnknownPair, isBid := true, id := 6, price := 100,
              placed := 1 },
    transactionHash := "0xhash", blockNumber := 9 }

/-- The `order_info` record the mapper builds from `samplePlacedDecoded`. -/
def sampleOrderInfo : OrderInfo :=
  { id := order_info_id sampleBase sampleQuote true 5, pair := samplePairAddr,
    base := sampleBase, quote := sampleQuote, isBid := true, orderId := 5,
    price := 100, amount := 2000000 }

/-- C1 (amended): on a receipt with failed status the pipeline raises
`Exception("Transaction failed")` before any decoding, so no DecodedEvent
or OrderInfo is ever produced — but the operation's blanket handler
catches the exception and the caller receives `None` instead of a
surfaced error. -/
theorem C1_failed_receipt_no_decode_error_swallowed (ctx : ExecCtx) (r : Receipt)
    (h : r.status = 0) :
    execute_transaction_body ctx r = .error (.exception "Transaction failed") ∧
    execute_transaction ctx r = .ok none := by
  have hb : execute_transaction_body ctx r = .error (.exception "Transaction failed") := by
    rw [execute_transaction_body]
    simp [h]
  exact ⟨hb, by rw [execute_transaction, hb]⟩

/-- Witness for C1: the sample failed receipt. -/
theorem C1_failed_receipt_no_decode_error_swallowed_witness :
    execute_transaction_body sampleCtx sampleReceiptFail
        = .error (.exception "Transaction failed") ∧
    execute_transaction sampleCtx sampleReceiptFail = .ok none :=
  C1_failed_receipt_no_decode_error_swallowed sampleCtx sampleReceiptFail rfl

/-- Counterexample to C1 as stated: for this failed receipt the public
operation does not surface any error — the raised exception is caught and
the call evaluates to `.ok none` (Python: returns `None`), not to an
`.error`. -/
theorem C1_counterexample :
    sampleReceiptFail.status = 0 ∧
    execute_transaction sampleCtx sampleReceiptFail = Except.ok none := by
  exact ⟨rfl, by rfl⟩

/-- C2 (code evaluation at the failing input): emitting the packed id for
`(sampleBase, sampleQuote, isBid := false, orderId := 7)` and parsing it
back through `cancel_orders` yields `isBid := true` — Python's
`bool("False")` is `True` — so the round-trip does not reproduce the
boolean side value. -/
theorem C2_roundtrip_flips_false_side :
    order_info_id sampleBase sampleQuote false 7
        = sampleBase ++ "_" ++ sampleQuote ++ "_False_7" ∧
    cancel_orders (.pyList [.str (order_info_id sampleBase sampleQuote false 7)])
        3000000 6000000000
      = .ok { functionName := "cancelOrders",
              args := [{ base := sampleBase, quote := sampleQuote,
                         isBid := true, orderId := 7 }],
              ethAmount := 0, gas := 3000000, gasPrice := 6000000000 } := by
  exact ⟨rfl, by decide⟩

/-- The OrderInfo records the mapper would collect for a receipt before the
single/empty/list return shaping (empty when decoding found nothing or a
metadata lookup raised). -/
def mappedRecords (ctx : ExecCtx) (r : Receipt) : List OrderInfo :=
  match decode_function_decoded_logs ctx.matchingEngine r with
  | none => []
  | some ls =>
      match parseDecodedLogsBody ctx.baseQuote ctx.tokenInfo ls with
      | .ok os => os
      | .error _ => []

/-- `_parse_decoded_logs` over the decoder's output is the return shaping
of the collected records. -/
theorem parse_decoded_logs_eq_parseReturn (ctx : ExecCtx) (r : Receipt) :
    parse_decoded_logs ctx.baseQuote ctx.tokenInfo
        (decode_function_decoded_logs ctx.matchingEngine r)
      = parseReturn (mappedRecords ctx r) := by
  rw [parse_decoded_logs.eq_def, mappedRecords.eq_def]
  cases decode_function_decoded_logs ctx.matchingEngine r with
  | none => rfl
  | some ls =>
      cases h : parseDecodedLogsBody ctx.baseQuote ctx.tokenInfo ls with
      | ok os => simp [h]
      | error e => simp [h, parseReturn]

/-- Key fact behind the result-bundle placement: `len()` of the single
`order_info` dict is its key count 8, never 1, so one collected record
lands in the `order_infos` branch; the literal `[]` of the zero case has
length 0 and lands in `order_info = None`. -/
theorem bundleOrders_parseReturn (os : List OrderInfo) :
    bundleOrders (parseReturn os) =
      .ok (match os with
           | [] => ResultOrders.orderInfoNone
           | [o] => ResultOrders.orderInfos (ParseResult.single o)
           | os => ResultOrders.orderInfos (ParseResult.list os)) := by
  match os with
  | [] => rfl
  | [o] => rfl
  | a :: b :: rest =>
      show bundleOrders (parseReturn (a :: b :: rest))
          = .ok (ResultOrders.orderInfos (ParseResult.list (a :: b :: rest)))
      have hp : parseReturn (a :: b :: rest) = ParseResult.list (a :: b :: rest) := rfl
      rw [hp, bundleOrders]
      simp [pyLen]

/-- C3 (amended): in every successful result bundle, a mapper outcome of
exactly one OrderPlaced record is stored under the `order_infos` key as
the bare record (the `len(...) == 1` test sees the dict's 8 keys, so the
`order_info` branch is never taken for it), zero records yield
`order_info = None`, and two or more yield `order_infos` as a list. -/
theorem C3_single_record_lands_under_order_infos (ctx : ExecCtx) (r : Receipt)
    (res : ExecResult) (h : execute_transaction_body ctx r = .ok res) :
    res.orders =
      match mappedRecords ctx r with
      | [] => ResultOrders.orderInfoNone
      | [o] => ResultOrders.orderInfos (ParseResult.single o)
      | os => ResultOrders.orderInfos (ParseResult.list os) := by
  by_cases hs : r.status = 0
  · rw [execute_transaction_body] at h
    simp [hs] at h
  · rw [execute_transaction_body] at h
    simp only [hs, if_false] at h
    rw [parse_decoded_logs_eq_parseReturn, bundleOrders_parseReturn] at h
    cases hm : mappedRecords ctx r with
    | nil =>
        rw [hm] at h
        simp [bind, Except.bind, pure, Except.pure] at h
        rw [← h]
    | cons a t =>
        cases t with
        | nil =>
            rw [hm] at h
            simp [bind, Except.bind, pure, Except.pure] at h
            rw [← h]
        | cons b t' =>
            rw [hm] at h
            simp [bind, Except.bind, pure, Except.pure] at h
            rw [← h]

/-- The full result bundle for `sampleReceiptOne`. -/
def sampleExecResultOne : ExecResult :=
  { txHash := "0xhash", decodedLogs := some [samplePlacedDecoded], gasUsed := 42,
    status := 1, orders := .orderInfos (.single sampleOrderInfo) }

/-- Witness for C3: the sample one-OrderPlaced receipt. -/
theorem C3_single_record_lands_under_order_infos_witness :
    sampleExecResultOne.orders =
      match mappedRecords sampleCtx sampleReceiptOne with
      | [] => ResultOrders.orderInfoNone
      | [o] => ResultOrders.orderInfos (ParseResult.single o)
      | os => ResultOrders.orderInfos (ParseResult.list os) :=
  C3_single_record_lands_under_order_infos sampleCtx sampleReceiptOne
    sampleExecResultOne (by decide)

/-- Counterexample to C3 as stated: with exactly one OrderPlaced decoded,
the bundle stores the record under the `order_infos` key (constructor
`.orderInfos`), not under `order_info`; and with zero OrderPlaced it
stores `order_info = None` rather than an `order_infos` list. -/
theorem C3_counterexample :
    execute_transaction_body sampleCtx sampleReceiptOne
        = .ok { txHash := "0xhash", decodedLogs := some [samplePlacedDecoded],
                gasUsed := 42, status := 1,
                orders := ResultOrders.orderInfos (ParseResult.single sampleOrderInfo) } ∧
    execute_transaction_body sampleCtx sampleReceiptNone
        = .ok { txHash := "0xhash", decodedLogs := none, gasUsed := 42, status := 1,
                orders := ResultOrders.orderInfoNone } := by
  exact ⟨by decide, by decide⟩

/-- A metadata lookup failure anywhere in the decoded list makes the loop
raise, whatever was already collected. -/
theorem parseBody_error_append (bq : List (String × PairMeta))
    (ti : List (String × TokenMeta)) (pre post : List DecodedLog) (l : DecodedLog)
    (h : ∃ e, processDecodedLog bq ti l = .error e) :
    ∃ e, parseDecodedLogsBody bq ti (pre ++ l :: post) = .error e := by
  induction pre with
  | nil =>
      obtain ⟨e, he⟩ := h
      exact ⟨e, by simp [parseDecodedLogsBody, he, bind, Except.bind]⟩
  | cons p pre ih =>
      cases hp : processDecodedLog bq ti p with
      | error e =>
          exact ⟨e, by simp [parseDecodedLogsBody, hp, bind, Except.bind]⟩
      | ok v =>
          obtain ⟨e, he⟩ := ih
          exact ⟨e, by simp [parseDecodedLogsBody, hp, he, bind, Except.bind]⟩

/-- C5 (amended): a missing pair or token metadata entry for any one
decoded event does not drop just that record — the `KeyError` reaches
`_parse_decoded_logs`' function-level handler, which returns `[]`, so
every record of the receipt (including ones already collected) is
discarded. -/
theorem C5_missing_metadata_aborts_receipt (bq : List (String × PairMeta))
    (ti : List (String × TokenMeta)) (pre post : List DecodedLog) (l : DecodedLog)
    (h : ∃ e, processDecodedLog bq ti l = .error e) :
    parse_decoded_logs bq ti (some (pre ++ l :: post)) = .list [] := by
  obtain ⟨e, he⟩ := parseBody_error_append bq ti pre post l h
  rw [parse_decoded_logs, he]

/-- Witness for C5: one well-mapped OrderPlaced followed by one whose pair
has no metadata; the whole receipt maps to no records. -/
theorem C5_missing_metadata_aborts_receipt_witness :
    parse_decoded_logs sampleBaseQuote sampleTokenInfo
        (some ([samplePlacedDecoded] ++ sampleUnknownPairDecoded :: [])) = .list [] :=
  C5_missing_metadata_aborts_receipt sampleBaseQuote sampleTokenInfo
    [samplePlacedDecoded] [] sampleUnknownPairDecoded
    ⟨.keyError (pyLower sampleUnknownPair), by decide⟩

/-- Counterexample to C5 as stated: the first decoded event maps fine on
its own, but adding a second event with missing pair metadata yields an
empty result — the first event's record is not "still produced". -/
theorem C5_counterexample :
    parse_decoded_logs sampleBaseQuote sampleTokenInfo (some [samplePlacedDecoded])
        = .single sampleOrderInfo ∧
    parse_decoded_logs sampleBaseQuote sampleTokenInfo
        (some [samplePlacedDecoded, sampleUnknownPairDecoded]) = .list [] := by
  exact ⟨by decide, by decide⟩

/-- An id splitting into fewer than four fields makes the indexing
`order_id[3]` (or earlier) raise `IndexError`. -/
theorem process_cancel_item_short (i : Nat) (s : String)
    (h : (pySplit '_' s).length < 4) :
    process_cancel_item i (.str s) = .error .indexError := by
  rw [process_cancel_item]
  cases l0 : pySplit '_' s with
  | nil => rfl
  | cons f0 t0 =>
      cases t0 with
      | nil => rfl
      | cons f1 t1 =>
          cases t1 with
          | nil => rfl
          | cons f2 t2 =>
              cases t2 with
              | nil => rfl
              | cons f3 t3 =>
                  rw [l0] at h
                  simp at h
                  omega

/-- If some entry of the batch has a short id, the whole enumeration loop
raises (either at that entry or at an earlier bad one). -/
theorem process_cancel_items_error (i : Nat) (entries : List CancelEntry) (s : String)
    (hm : CancelEntry.str s ∈ entries) (hl : (pySplit '_' s).length < 4) :
    ∃ e, process_cancel_items i entries = .error e := by
  induction entries generalizing i with
  | nil => cases hm
  | cons a rest ih =>
      cases hm with
      | head =>
          exact ⟨.indexError, by
            simp [process_cancel_items, process_cancel_item_short i s hl, bind, Except.bind]⟩
      | tail _ hm' =>
          cases ha : process_cancel_item i a with
          | error e =>
              exact ⟨e, by simp [process_cancel_items, ha, bind, Except.bind]⟩
          | ok t =>
              obtain ⟨e, he⟩ := ih (i + 1) hm'
              exact ⟨e, by simp [process_cancel_items, ha, he, bind, Except.bind]⟩

/-- C6 (amended): each packed identifier is split on `_`; an entry with
fewer than four fields rejects the whole batch (no transaction is built),
but an entry with more than four fields is not rejected — fields beyond
the fourth are ignored, so two ids agreeing on their first four fields are
processed identically. -/
theorem C6_short_ids_reject_extra_fields_ignored :
    (∀ (entries : List CancelEntry) (g gp : Nat) (s : String),
        CancelEntry.str s ∈ entries → (pySplit '_' s).length < 4 →
        ∃ e, cancel_orders (.pyList entries) g gp = .error e) ∧
    (∀ (i : Nat) (s t : String),
        4 ≤ (pySplit '_' s).length → 4 ≤ (pySplit '_' t).length →
        (pySplit '_' s).take 4 = (pySplit '_' t).take 4 →
        process_cancel_item i (.str s) = process_cancel_item i (.str t)) := by
  constructor
  · intro entries g gp s hm hl
    obtain ⟨e, he⟩ := process_cancel_items_error 0 entries s hm hl
    refine ⟨e, ?_⟩
    cases entries with
    | nil => cases hm
    | cons a rest =>
        simp [cancel_orders, he, bind, Except.bind]
  · intro i s t hs ht hst
    obtain ⟨a0, r0, h0⟩ : ∃ x xs, pySplit '_' s = x :: xs := by
      cases hps : pySplit '_' s with
      | nil => rw [hps] at hs; simp at hs
      | cons x xs => exact ⟨x, xs, rfl⟩
    obtain ⟨a1, r1, h1⟩ : ∃ x xs, r0 = x :: xs := by
      cases hps : r0 with
      | nil => rw [h0, hps] at hs; simp at hs
      | cons x xs => exact ⟨x, xs, rfl⟩
    obtain ⟨a2, r2, h2⟩ : ∃ x xs, r1 = x :: xs := by
      cases hps : r1 with
      | nil => rw [h0, h1, hps] at hs; simp at hs
      | cons x xs => exact ⟨x, xs, rfl⟩
    obtain ⟨a3, r3, h3⟩ : ∃ x xs, r2 = x :: xs := by
      cases hps : r2 with
      | nil => rw [h0, h1, h2, hps] at hs; simp at hs
      | cons x xs => exact ⟨x, xs, rfl⟩
    obtain ⟨b0, q0, g0⟩ : ∃ x xs, pySplit '_' t = x :: xs := by
      cases hps : pySplit '_' t with
      | nil => rw [hps] at ht; simp at ht
      | cons x xs => exact ⟨x, xs, rfl⟩
    obtain ⟨b1, q1, g1⟩ : ∃ x xs, q0 = x :: xs := by
      cases hps : q0 with
      | nil => rw [g0, hps] at ht; simp at ht
      | cons x xs => exact ⟨x, xs, rfl⟩
    obtain ⟨b2, q2, g2⟩ : ∃ x xs, q1 = x :: xs := by
      cases hps : q1 with
      | nil => rw [g0, g1, hps] at ht; simp at ht
      | cons x xs => exact ⟨x, xs, rfl⟩
    obtain ⟨b3, q3, g3⟩ : ∃ x xs, q2 = x :: xs := by
      cases hps : q2 with
      | nil => rw [g0, g1, g2, hps] at ht; simp at ht
      | cons x xs => exact ⟨x, xs, rfl⟩
    rw [h0, h1, h2, h3, g0, g1, g2, g3] at hst
    simp [List.take] at hst
    obtain ⟨e0, e1, e2, e3⟩ := hst
    rw [process_cancel_item, process_cancel_item, h0, h1, h2, h3, g0, g1, g2, g3,
      e0, e1, e2, e3]

/-- Witness for C6: a 2-field id rejects its batch; two 5-field ids
agreeing on the first four fields process identically. -/
theorem C6_short_ids_reject_extra_fields_ignored_witness :
    (∃ e, cancel_orders (.pyList [.str "a_b"]) 3000000 6000000000 = .error e) ∧
    process_cancel_item 0 (.str (sampleBase ++ "_" ++ sampleQuote ++ "_True_5_junk"))
        = process_cancel_item 0 (.str (sampleBase ++ "_" ++ sampleQuote ++ "_True_5_x")) :=
  ⟨C6_short_ids_reject_extra_fields_ignored.1 [.str "a_b"] 3000000 6000000000 "a_b"
      (by decide) (by decide),
   C6_short_ids_reject_extra_fields_ignored.2 0 _ _ (by decide) (by decide) (by decide)⟩

/-- Counterexample to C6 as stated: an entry that splits into five fields
("fails to parse into exactly four fields") is not rejected — the batch
goes through, the fifth field silently dropped. -/
theorem C6_counterexample :
    cancel_orders (.pyList [.str (sampleBase ++ "_" ++ sampleQuote ++ "_True_5_junk")])
        3000000 6000000000
      = .ok { functionName := "cancelOrders",
              args := [{ base := sampleBase, quote := sampleQuote,
                         isBid := true, orderId := 5 }],
              ethAmount := 0, gas := 3000000, gasPrice := 6000000000 } := by
  decide

/-- A create item with every required field (100 native units, ETH-flagged)
and no `orderId`. -/
def sampleCreateEth100 : OrderDict :=
  { base := some sampleBase, quote := some sampleQuote, isBid := some true,
    isLimit := some true, price := some 100, amount := some 100, n := some 1,
    recipient := some sampleRecipient, isETH := some true }

/-- Same shape with 50 native units. -/
def sampleCreateEth50 : OrderDict :=
  { sampleCreateEth100 with amount := some 50 }

/-- Same shape, not ETH-denominated. -/
def sampleCreateToken : OrderDict :=
  { sampleCreateEth100 with amount := some 7, isETH := some false }

/-- C7 (code evaluation at the failing input): for a valid create item the
fifth position of the encoded `createOrders` tuple — the order-id slot,
where `update_orders` puts `int(order_data["orderId"])` — is the literal
`1`, both when the item omits `orderId` (claim: 0) and when it carries
`orderId = 7` (claim: 7); the defaulted `orderId` value is never read. -/
theorem C7_orderId_slot_hardcoded_one :
    (create_orders (.pyList [.dict sampleCreateEth100]) 3000000 6000000000).map
        (fun bc => bc.args.map ProcessedOrder.orderId) = .ok [1] ∧
    (create_orders (.pyList [.dict { sampleCreateEth100 with orderId := some 7 }])
        3000000 6000000000).map
        (fun bc => bc.args.map ProcessedOrder.orderId) = .ok [1] ∧
    (update_orders (.pyList [.dict { sampleCreateEth100 with orderId := some 7 }])
        3000000 6000000000).map
        (fun bc => bc.args.map ProcessedOrder.orderId) = .ok [7] := by
  exact ⟨by decide, by decide, by decide⟩

/-- An item's contribution to the summed `eth_amount`: its amount when its
`isETH` flag is set. -/
def entryEthContribution (e : OrderEntry) : Nat :=
  match e with
  | .dict d => if d.isETH = some true then d.amount.getD 0 else 0
  | .nonDict => 0

/-- Sum of the amounts of exactly the ETH-flagged items. -/
def ethSum (items : List OrderEntry) : Nat :=
  (items.map entryEthContribution).sum

/-- `getField` succeeds exactly on a present key, returning its value. -/
theorem getField_eq_ok {α : Type} (o : Option α) (k : String) (v : α) :
    getField o k = .ok v ↔ o = some v := by
  cases o <;> simp [getField]

/-- `toChecksumAddress` succeeds exactly on well-formed addresses and (in
this model) returns its input. -/
theorem toChecksumAddress_eq_ok (s v : String) :
    toChecksumAddress s = .ok v ↔ (isHexAddress s = true ∧ v = s) := by
  rw [toChecksumAddress]
  split
  · rename_i hh
    constructor
    · intro hv
      injection hv with hv
      exact ⟨hh, hv.symm⟩
    · rintro ⟨-, rfl⟩
      rfl
  · rename_i hh
    simp [hh]

/-- A successful `create_orders` item contributes exactly its
ETH-flag-guarded amount to `eth_amount`. -/
theorem processCreateItem_ok_eth (i : Nat) (e : OrderEntry) (po : ProcessedOrder)
    (c : Nat) (h : processCreateItem i e = .ok (po, c)) :
    c = entryEthContribution e := by
  cases e with
  | nonDict => simp [processCreateItem] at h
  | dict d0 =>
      obtain ⟨fb, fq, fib, fil, foid, fp, fa, fn2, fr, fie⟩ := d0
      rcases foid with _ | ov <;>
        rcases fie with _ | iev <;>
          rcases fb with _ | bv <;>
            rcases fq with _ | qv <;>
              rcases fib with _ | ibv <;>
                rcases fil with _ | ilv <;>
                  rcases fp with _ | pv <;>
                    rcases fa with _ | av <;>
                      rcases fn2 with _ | nv <;>
                        rcases fr with _ | rv <;>
                          simp_all [processCreateItem, createRequiredMissing, getField,
                            bind, Except.bind, toChecksumAddress, entryEthContribution] <;>
                          split_ifs at h <;>
                          simp_all

/-- A successful `update_orders` item contributes exactly its
ETH-flag-guarded amount to `eth_amount`. -/
theorem processUpdateItem_ok_eth (i : Nat) (e : OrderEntry) (po : ProcessedOrder)
    (c : Nat) (h : processUpdateItem i e = .ok (po, c)) :
    c = entryEthContribution e := by
  cases e with
  | nonDict => simp [processUpdateItem] at h
  | dict d0 =>
      obtain ⟨fb, fq, fib, fil, foid, fp, fa, fn2, fr, fie⟩ := d0
      rcases foid with _ | ov <;>
        rcases fie with _ | iev <;>
          rcases fb with _ | bv <;>
            rcases fq with _ | qv <;>
              rcases fib with _ | ibv <;>
                rcases fil with _ | ilv <;>
                  rcases fp with _ | pv <;>
                    rcases fa with _ | av <;>
                      rcases fn2 with _ | nv <;>
                        rcases fr with _ | rv <;>
                          simp_all [processUpdateItem, updateRequiredMissing, getField,
                            bind, Except.bind, toChecksumAddress, entryEthContribution] <;>
                          split_ifs at h <;>
                          simp_all

/-- A successful enumeration loop yields one tuple per item and the
ETH-flag-guarded amount sum. -/
theorem processOrderItems_ok
    (step : Nat → OrderEntry → Except PyErr (ProcessedOrder × Nat))
    (hstep : ∀ i e po c, step i e = .ok (po, c) → c = entryEthContribution e)
    (i : Nat) (items : List OrderEntry) (pos : List ProcessedOrder) (eth : Nat)
    (h : processOrderItems step i items = .ok (pos, eth)) :
    eth = ethSum items ∧ pos.length = items.length := by
  induction items generalizing i pos eth with
  | nil =>
      simp [processOrderItems] at h
      simp [← h.1, ← h.2, ethSum]
  | cons e rest ih =>
      rw [processOrderItems] at h
      simp only [bind, Except.bind] at h
      split at h
      · simp at h
      · rename_i v hv
        obtain ⟨po1, c1⟩ := v
        split at h
        · simp at h
        · rename_i v' hv'
          obtain ⟨pos1, eth1⟩ := v'
          simp only [Except.ok.injEq, Prod.mk.injEq] at h
          obtain ⟨hpos, heth⟩ := h
          obtain ⟨h1, h2⟩ := ih (i + 1) pos1 eth1 hv'
          constructor
          · rw [← heth, hstep i e po1 c1 hv, h1]
            simp [ethSum]
          · rw [← hpos]
            simp [h2]

/-- The gas-floor conditional computes a maximum. -/
theorem ite_lt_eq_max (a b : Nat) : (if a < b then b else a) = max a b := by
  rcases Nat.lt_or_ge a b with h | h <;> simp [h] <;> omega

/-- C8: for every batch accepted by `create_orders` or `update_orders`,
the summed native value handed to the transaction equals the sum of the
amounts of exactly the ETH-flagged items (and is what the built
transaction attaches as `value`), and the gas limit used is the maximum of
the caller-supplied gas and 3,000,000 per item. -/
theorem C8_eth_value_sum_and_gas_floor :
    (∀ (items : List OrderEntry) (g gp : Nat) (out : BuiltCall ProcessedOrder),
        create_orders (.pyList items) g gp = .ok out →
        out.ethAmount = ethSum items ∧
        out.gas = max g (3000000 * items.length) ∧
        ∀ (sender : String) (nonce : Nat),
          (buildTxParams sender nonce out).value = ethSum items) ∧
    (∀ (items : List OrderEntry) (g gp : Nat) (out : BuiltCall ProcessedOrder),
        update_orders (.pyList items) g gp = .ok out →
        out.ethAmount = ethSum items ∧
        out.gas = max g (3000000 * items.length) ∧
        ∀ (sender : String) (nonce : Nat),
          (buildTxParams sender nonce out).value = ethSum items) := by
  constructor
  · intro items g gp out h
    cases items with
    | nil => simp [create_orders] at h
    | cons a rest =>
        rw [create_orders.eq_def] at h
        simp only [List.isEmpty_cons, Bool.false_eq_true, if_false, bind, Except.bind] at h
        split at h
        · simp at h
        · rename_i v hv
          obtain ⟨processed, eth⟩ := v
          obtain ⟨he, hlen⟩ := processOrderItems_ok _ processCreateItem_ok_eth 0 _ _ _ hv
          simp only [Except.ok.injEq] at h
          subst h
          refine ⟨he, ?_, ?_⟩
          · simp only []
            rw [hlen, ite_lt_eq_max]
          · intro sender nonce
            simp only [buildTxParams, he]
            split <;> omega
  · intro items g gp out h
    cases items with
    | nil => simp [update_orders] at h
    | cons a rest =>
        rw [update_orders.eq_def] at h
        simp only [List.isEmpty_cons, Bool.false_eq_true, if_false, bind, Except.bind] at h
        split at h
        · simp at h
        · rename_i v hv
          obtain ⟨processed, eth⟩ := v
          obtain ⟨he, hlen⟩ := processOrderItems_ok _ processUpdateItem_ok_eth 0 _ _ _ hv
          simp only [Except.ok.injEq] at h
          subst h
          refine ⟨he, ?_, ?_⟩
          · simp only []
            rw [hlen, ite_lt_eq_max]
          · intro sender nonce
            simp only [buildTxParams, he]
            split <;> omega

/-- The spec scenario's 3-item batch: two ETH items (100 and 50) and one
token item. -/
def sampleEthBatch : List OrderEntry :=
  [.dict sampleCreateEth100, .dict sampleCreateEth50, .dict sampleCreateToken]

/-- The call `create_orders` builds for `sampleEthBatch` with caller gas
3,000,000. -/
def sampleEthBatchOut : BuiltCall ProcessedOrder :=
  { functionName := "createOrders",
    args :=
      [{ base := sampleBase, quote := sampleQuote, isBid := true, isLimit := true,
         orderId := 1, price := 100, amount := 100, n := 1,
         recipient := sampleRecipient, isETH := true },
       { base := sampleBase, quote := sampleQuote, isBid := true, isLimit := true,
         orderId := 1, price := 100, amount := 50, n := 1,
         recipient := sampleRecipient, isETH := true },
       { base := sampleBase, quote := sampleQuote, isBid := true, isLimit := true,
         orderId := 1, price := 100, amount := 7, n := 1,
         recipient := sampleRecipient, isETH := false }],
    ethAmount := 150, gas := 9000000, gasPrice := 6000000000 }

/-- Witness for C8: the 3-item scenario attaches value 150 and has gas
9,000,000 = 3 × 3,000,000 ≥ the floor. -/
theorem C8_eth_value_sum_and_gas_floor_witness :
    ethSum sampleEthBatch = 150 ∧
    sampleEthBatchOut.ethAmount = ethSum sampleEthBatch ∧
    sampleEthBatchOut.gas = max 3000000 (3000000 * sampleEthBatch.length) ∧
    (buildTxParams sampleRecipient 0 sampleEthBatchOut).value = ethSum sampleEthBatch :=
  have h := C8_eth_value_sum_and_gas_floor.1 sampleEthBatch 3000000 6000000000
    sampleEthBatchOut (by decide)
  ⟨by decide, h.1, h.2.1, h.2.2 sampleRecipient 0⟩

/-- If the first `i` items process fine and the item at index `i` always
raises (with an index-dependent message), the enumeration loop raises that
item's error. -/
theorem processOrderItems_error_at
    (step : Nat → OrderEntry → Except PyErr (ProcessedOrder × Nat))
    (E : Nat → PyErr) (k : Nat) (items : List OrderEntry) (i : Nat) (e0 : OrderEntry)
    (hget : items.get? i = some e0)
    (hprev : ∀ j e', j < i → items.get? j = some e' → ∃ v, step (k + j) e' = .ok v)
    (hstep : ∀ m, step m e0 = .error (E m)) :
    processOrderItems step k items = .error (E (k + i)) := by
  induction items generalizing k i with
  | nil => simp at hget
  | cons a rest ih =>
      cases i with
      | zero =>
          have ha : a = e0 := by simpa using hget
          subst ha
          rw [processOrderItems]
          simp only [bind, Except.bind, hstep k, Nat.add_zero]
      | succ i' =>
          obtain ⟨v, hv⟩ := hprev 0 a (Nat.succ_pos i') (by simp)
          rw [Nat.add_zero] at hv
          obtain ⟨po1, c1⟩ := v
          rw [processOrderItems]
          simp only [bind, Except.bind, hv]
          have hrec := ih (k + 1) i' (by simpa using hget)
            (fun j e' hj hj' => by
              have h2 := hprev (j + 1) e' (Nat.succ_lt_succ hj) (by simpa using hj')
              have harith : k + (j + 1) = k + 1 + j := by omega
              rw [harith] at h2
              exact h2)
          rw [hrec]
          have harith : k + 1 + i' = k + (i' + 1) := by omega
          rw [harith]

/-- An item failing `create_orders`' required-field check raises the
index-naming `ValueError` whatever its position. -/
theorem processCreateItem_missing_field (d : OrderDict) (f : String)
    (hmiss : createRequiredMissing d = some f) (m : Nat) :
    processCreateItem m (.dict d)
      = .error (.valueError ("Order data at index " ++ toString m
          ++ " missing required field: " ++ f)) := by
  rw [processCreateItem]
  have hd : createRequiredMissing
      (if d.orderId.isNone then { d with orderId := some 0 } else d) = some f := by
    cases ho : d.orderId with
    | none => exact hmiss
    | some ov => exact hmiss
  rw [hd]

/-- An item failing `update_orders`' required-field check raises the
index-naming `ValueError` whatever its position. -/
theorem processUpdateItem_missing_field (d : OrderDict) (f : String)
    (hmiss : updateRequiredMissing d = some f) (m : Nat) :
    processUpdateItem m (.dict d)
      = .error (.valueError ("Order data at index " ++ toString m
          ++ " missing required field: " ++ f)) := by
  rw [processUpdateItem, hmiss]

/-- C9: for both batch builders — a non-list input is rejected, an empty
list is rejected, and a missing required field at the first malformed
index `i` is rejected with an error naming index `i`; each rejection is an
error result, so no transaction is ever built or submitted. -/
theorem C9_validation_rejects_before_build :
    (∀ g gp : Nat, create_orders .notAList g gp
        = .error (.valueError "create_order_data must be a list")) ∧
    (∀ g gp : Nat, create_orders (.pyList []) g gp
        = .error (.valueError "create_order_data cannot be empty")) ∧
    (∀ (items : List OrderEntry) (i : Nat) (d : OrderDict) (f : String) (g gp : Nat),
        items.get? i = some (.dict d) →
        (∀ j e', j < i → items.get? j = some e' → ∃ v, processCreateItem j e' = .ok v) →
        createRequiredMissing d = some f →
        create_orders (.pyList items) g gp
          = .error (.valueError ("Order data at index " ++ toString i
              ++ " missing required field: " ++ f))) ∧
    (∀ g gp : Nat, update_orders .notAList g gp
        = .error (.valueError "update_order_data must be a list")) ∧
    (∀ g gp : Nat, update_orders (.pyList []) g gp
        = .error (.valueError "update_order_data cannot be empty")) ∧
    (∀ (items : List OrderEntry) (i : Nat) (d : OrderDict) (f : String) (g gp : Nat),
        items.get? i = some (.dict d) →
        (∀ j e', j < i → items.get? j = some e' → ∃ v, processUpdateItem j e' = .ok v) →
        updateRequiredMissing d = some f →
        update_orders (.pyList items) g gp
          = .error (.valueError ("Order data at index " ++ toString i
              ++ " missing required field: " ++ f))) := by
  refine ⟨fun g gp => rfl, fun g gp => rfl, ?_, fun g gp => rfl, fun g gp => rfl, ?_⟩
  · intro items i d f g gp hget hprev hmiss
    have herr := processOrderItems_error_at processCreateItem
      (fun m => .valueError ("Order data at index " ++ toString m
        ++ " missing required field: " ++ f))
      0 items i (.dict d) hget
      (fun j e' hj hj' => by
        have := hprev j e' hj hj'
        simpa [Nat.zero_add] using this)
      (fun m => processCreateItem_missing_field d f hmiss m)
    rw [Nat.zero_add] at herr
    cases items with
    | nil => simp at hget
    | cons a rest =>
        rw [create_orders.eq_def]
        simp only [List.isEmpty_cons, Bool.false_eq_true, if_false, bind, Except.bind, herr]
  · intro items i d f g gp hget hprev hmiss
    have herr := processOrderItems_error_at processUpdateItem
      (fun m => .valueError ("Order data at index " ++ toString m
        ++ " missing required field: " ++ f))
      0 items i (.dict d) hget
      (fun j e' hj hj' => by
        have := hprev j e' hj hj'
        simpa [Nat.zero_add] using this)
      (fun m => processUpdateItem_missing_field d f hmiss m)
    rw [Nat.zero_add] at herr
    cases items with
    | nil => simp at hget
    | cons a rest =>
        rw [update_orders.eq_def]
        simp only [List.isEmpty_cons, Bool.false_eq_true, if_false, bind, Except.bind, herr]

/-- The processed tuple `create_orders` builds from `sampleCreateEth100`. -/
def sampleProcessedEth100 : ProcessedOrder :=
  { base := sampleBase, quote := sampleQuote, isBid := true, isLimit := true,
    orderId := 1, price := 100, amount := 100, n := 1,
    recipient := sampleRecipient, isETH := true }

/-- Witness for C9: concrete rejections — non-list, empty list, and a
second item missing `quote` reported as index 1, for both builders. -/
theorem C9_validation_rejects_before_build_witness :
    create_orders .notAList 3000000 6000000000
        = .error (.valueError "create_order_data must be a list") ∧
    create_orders (.pyList []) 3000000 6000000000
        = .error (.valueError "create_order_data cannot be empty") ∧
    create_orders (.pyList [.dict sampleCreateEth100, .dict { base := some sampleBase }])
        3000000 6000000000
        = .error (.valueError "Order data at index 1 missing required field: quote") ∧
    update_orders .notAList 3000000 6000000000
        = .error (.valueError "update_order_data must be a list") ∧
    update_orders (.pyList []) 3000000 6000000000
        = .error (.valueError "update_order_data cannot be empty") ∧
    update_orders (.pyList [.dict { base := some sampleBase }]) 3000000 6000000000
        = .error (.valueError "Order data at index 0 missing required field: quote") :=
  ⟨C9_validation_rejects_before_build.1 3000000 6000000000,
   C9_validation_rejects_before_build.2.1 3000000 6000000000,
   C9_validation_rejects_before_build.2.2.1
     [.dict sampleCreateEth100, .dict { base := some sampleBase }] 1
     { base := some sampleBase } "quote" 3000000 6000000000 (by decide)
     (fun j e' hj hj' => by
       have hj0 : j = 0 := by omega
       subst hj0
       simp only [List.get?] at hj'
       cases hj'
       exact ⟨(sampleProcessedEth100, 100), by decide⟩)
     (by decide),
   C9_validation_rejects_before_build.2.2.2.1 3000000 6000000000,
   C9_validation_rejects_before_build.2.2.2.2.1 3000000 6000000000,
   C9_validation_rejects_before_build.2.2.2.2.2
     [.dict { base := some sampleBase }] 0 { base := some sampleBase } "quote"
     3000000 6000000000 (by decide)
     (fun j e' hj hj' => absurd hj (Nat.not_lt_zero j))
     (by decide)⟩

/-- C10: `isETH` is absent from `create_orders`' required-field list, yet
the tuple construction reads it after validation; an item that passes the
documented required-field check (and whose addresses are well-formed) but
omits `isETH` makes the call raise `KeyError("isETH")` — an error carrying
no item index, unlike the index-naming validation `ValueError`s. -/
theorem C10_unvalidated_isETH_raises_keyerror (d : OrderDict) (g gp : Nat)
    (hreq : createRequiredMissing d = none) (heth : d.isETH = none)
    (hb : ∀ s, d.base = some s → isHexAddress s = true)
    (hq : ∀ s, d.quote = some s → isHexAddress s = true)
    (hr : ∀ s, d.recipient = some s → isHexAddress s = true) :
    create_orders (.pyList [.dict d]) g gp = .error (.keyError "isETH") := by
  obtain ⟨fb, fq, fib, fil, foid, fp, fa, fn2, fr, fie⟩ := d
  simp only at heth
  subst heth
  rcases fb with _ | bv
  · simp [createRequiredMissing] at hreq
  rcases fq with _ | qv
  · simp [createRequiredMissing] at hreq
  rcases fib with _ | ibv
  · simp [createRequiredMissing] at hreq
  rcases fil with _ | ilv
  · simp [createRequiredMissing] at hreq
  rcases fp with _ | pv
  · simp [createRequiredMissing] at hreq
  rcases fa with _ | av
  · simp [createRequiredMissing] at hreq
  rcases fn2 with _ | nv
  · simp [createRequiredMissing] at hreq
  rcases fr with _ | rv
  · simp [createRequiredMissing] at hreq
  have hbv := hb bv rfl
  have hqv := hq qv rfl
  have hrv := hr rv rfl
  rcases foid with _ | ov <;>
    simp [create_orders, processOrderItems, processCreateItem, createRequiredMissing,
      getField, bind, Except.bind, toChecksumAddress, hbv, hqv, hrv]

/-- A create item with every required field but no `isETH` key. -/
def sampleCreateNoIsEth : OrderDict :=
  { sampleCreateEth100 with isETH := none }

/-- Witness for C10: the sample item without `isETH`. -/
theorem C10_unvalidated_isETH_raises_keyerror_witness :
    create_orders (.pyList [.dict sampleCreateNoIsEth]) 3000000 6000000000
      = .error (.keyError "isETH") :=
  C10_unvalidated_isETH_raises_keyerror sampleCreateNoIsEth 3000000 6000000000
    (by decide) rfl
    (fun s hs => by
      rw [show sampleCreateNoIsEth.base = some sampleBase from rfl] at hs
      injection hs with hs
      subst hs
      decide)
    (fun s hs => by
      rw [show sampleCreateNoIsEth.quote = some sampleQuote from rfl] at hs
      injection hs with hs
      subst hs
      decide)
    (fun s hs => by
      rw [show sampleCreateNoIsEth.recipient = some sampleRecipient from rfl] at hs
      injection hs with hs
      subst hs
      decide)
